import Mathlib

set_option maxRecDepth 100000
set_option synthInstance.maxSize 2000
set_option synthInstance.maxHeartbeats 1000000

/-!
Verification of the ASN.1 DER tag model (`src/der/src/tag.rs`).

The `Tag` type, its octet (de)serialization, class/number/constructed
queries and `assert_eq` are embedded directly from `tag.rs`.  The tag
submodules (`tag/class.rs`, `tag/number.rs`), the error type
(`error.rs`), the length codec (`length.rs`) and the header codec
(`header.rs`) are not part of the provided sources; the definitions
that stand in for them are modelled from the specification and say so
in their doc comments.

Bytes are embedded as `Nat` values; every byte-valued quantity is
bounded by 256 in the theorems that need the bound.
-/

namespace Der

/-- Modelled from the spec: `tag/number.rs` is missing from the sources.
ASN.1 tag numbers (the spec restricts them to 0–30; 31, the extended
high-tag-number form, is rejected).  The wrapped value is a byte. -/
structure TagNumber where
  value : Nat
deriving DecidableEq, Repr

/-- Modelled from the spec: mask for the low five bits of the identifier
octet, which hold the tag number (spec §3: "number (bits 5–1)"). -/
def TagNumber.MASK : Nat := 0b11111

/-- Modelled from the spec: `tag/class.rs` is missing from the sources.
The four ASN.1 tag classes (spec glossary: universal / application /
context-specific / private). -/
inductive Class
  | Universal
  | Application
  | ContextSpecific
  | Private
deriving DecidableEq, BEq, Repr

/-- Modelled from the spec: the class bits occupy bits 8–7 of the
identifier octet (spec §3), so universal = 0b00, application = 0b01,
context-specific = 0b10, private = 0b11 in the top two bits. -/
def Class.bits : Class → Nat
  | .Universal => 0x00
  | .Application => 0x40
  | .ContextSpecific => 0x80
  | .Private => 0xC0

/-- Modelled from the spec: `Class::octet(constructed, number)` from the
missing `tag/class.rs`.  Spec §3: "The single-octet encoding packs class
(bits 8–7), form (bit 6), and number (bits 5–1)." -/
def Class.octet (c : Class) (constructed : Bool) (number : TagNumber) : Nat :=
  c.bits ||| (constructed.toNat <<< 5) ||| number.value

/-- Indicator bit for constructed form encoding (`tag.rs` line 13). -/
def CONSTRUCTED_FLAG : Nat := 0b100000

/-- ASN.1 tags, from `tag.rs`: thirteen universal variants plus the three
parameterized classes carrying a constructed bit and a tag number. -/
inductive Tag
  | Boolean
  | Integer
  | BitString
  | OctetString
  | Null
  | ObjectIdentifier
  | Utf8String
  | Sequence
  | Set
  | PrintableString
  | Ia5String
  | UtcTime
  | GeneralizedTime
  | Application (constructed : Bool) (number : TagNumber)
  | ContextSpecific (constructed : Bool) (number : TagNumber)
  | Private (constructed : Bool) (number : TagNumber)
deriving DecidableEq, Repr

/-- Modelled from the spec: `error.rs` is missing from the sources.  The
error kinds of spec §4.8.  The spec's `Error` couples a kind with an
optional byte position; no code path embedded here ever attaches a
position, so errors are embedded as their kind. -/
inductive ErrorKind
  | Truncated
  | Trailing
  | Overflow
  | Underflow
  | UnknownTag (byte : Nat)
  | UnexpectedTag (expected : Option Tag) (actual : Tag)
  | Length (tag : Tag)
  | Value (tag : Tag)
  | Noncanonical (tag : Tag)
  | Utf8
  | OidMalformed
  | DateTime
deriving DecidableEq, Repr

deriving instance DecidableEq for Except

/-- Modelled from the spec: the crate's `Result<T>` alias over the error
type of §4.8. -/
abbrev Result (α : Type) := Except ErrorKind α

/-- Modelled from the spec: `TagNumber::try_from` from the missing
`tag/number.rs`.  Tag numbers 0–30 are accepted; 31 (the extended form)
"is not supported" (spec §4.2), and the spec's only tag-level parse
error is `UnknownTag{byte}`, so the rejection carries the masked value
this function receives. -/
def TagNumber.try_from (byte : Nat) : Result TagNumber :=
  if byte ≤ 30 then .ok ⟨byte⟩ else .error (.UnknownTag byte)

/-- `Tag::class` from `tag.rs` (named `tagClass` because `class` is a
Lean keyword): the three parameterized variants map to their class,
everything else is universal. -/
def Tag.tagClass : Tag → Class
  | .Application _ _ => .Application
  | .ContextSpecific _ _ => .ContextSpecific
  | .Private _ _ => .Private
  | _ => .Universal

/-- `Tag::octet` from `tag.rs`: the identifier octet of the tag. -/
def Tag.octet : Tag → Nat
  | .Boolean => 0x01
  | .Integer => 0x02
  | .BitString => 0x03
  | .OctetString => 0x04
  | .Null => 0x05
  | .ObjectIdentifier => 0x06
  | .Utf8String => 0x0C
  | .Sequence => 0x10 ||| CONSTRUCTED_FLAG
  | .Set => 0x11 ||| CONSTRUCTED_FLAG
  | .PrintableString => 0x13
  | .Ia5String => 0x16
  | .UtcTime => 0x17
  | .GeneralizedTime => 0x18
  | .Application constructed number =>
      (Tag.Application constructed number).tagClass.octet constructed number
  | .ContextSpecific constructed number =>
      (Tag.ContextSpecific constructed number).tagClass.octet constructed number
  | .Private constructed number =>
      (Tag.Private constructed number).tagClass.octet constructed number

/-- `Tag::number` from `tag.rs`: the tag number, extracted from the
encoded octet. -/
def Tag.number (t : Tag) : TagNumber :=
  ⟨t.octet &&& TagNumber.MASK⟩

/-- `Tag::is_constructed` from `tag.rs`: bit 6 of the encoded octet. -/
def Tag.is_constructed (t : Tag) : Bool :=
  (t.octet &&& CONSTRUCTED_FLAG) != 0

/-- `Tag::is_application` from `tag.rs`. -/
def Tag.is_application (t : Tag) : Bool :=
  t.tagClass == Class.Application

/-- `Tag::is_context_specific` from `tag.rs`. -/
def Tag.is_context_specific (t : Tag) : Bool :=
  t.tagClass == Class.ContextSpecific

/-- `Tag::is_private` from `tag.rs`. -/
def Tag.is_private (t : Tag) : Bool :=
  t.tagClass == Class.Private

/-- `Tag::is_universal` from `tag.rs`. -/
def Tag.is_universal (t : Tag) : Bool :=
  t.tagClass == Class.Universal

/-- `Tag::unexpected_error` from `tag.rs`. -/
def Tag.unexpected_error (t : Tag) (expected : Option Tag) : ErrorKind :=
  .UnexpectedTag expected t

/-- `Tag::assert_eq` from `tag.rs`: `Ok(self)` on equality, otherwise an
`UnexpectedTag` error. -/
def Tag.assert_eq (t expected : Tag) : Result Tag :=
  if t = expected then .ok t else .error (t.unexpected_error (some expected))

/-- `impl TryFrom<u8> for Tag` from `tag.rs`: the constructed bit and tag
number are extracted first (so a tag number of 31 fails before the match
on the byte), then the byte is classified. -/
def Tag.try_from (byte : Nat) : Result Tag := do
  let constructed := (byte &&& CONSTRUCTED_FLAG) != 0
  let number ← TagNumber.try_from (byte &&& TagNumber.MASK)
  if byte = 0x01 then .ok .Boolean
  else if byte = 0x02 then .ok .Integer
  else if byte = 0x03 then .ok .BitString
  else if byte = 0x04 then .ok .OctetString
  else if byte = 0x05 then .ok .Null
  else if byte = 0x06 then .ok .ObjectIdentifier
  else if byte = 0x0C then .ok .Utf8String
  else if byte = 0x13 then .ok .PrintableString
  else if byte = 0x16 then .ok .Ia5String
  else if byte = 0x17 then .ok .UtcTime
  else if byte = 0x18 then .ok .GeneralizedTime
  else if byte = 0x30 then .ok .Sequence
  else if byte = 0x31 then .ok .Set
  else if 0x40 ≤ byte ∧ byte ≤ 0x7E then .ok (.Application constructed number)
  else if 0x80 ≤ byte ∧ byte ≤ 0xBE then .ok (.ContextSpecific constructed number)
  else if 0xC0 ≤ byte ∧ byte ≤ 0xFE then .ok (.Private constructed number)
  else .error (.UnknownTag byte)

/-- Modelled from the spec: `length.rs` is missing from the sources.
Lengths are non-negative counts of value octets. -/
abbrev Length := Nat

/-- Modelled from the spec: the length constant one. -/
def Length.ONE : Length := 1

/-- Modelled from the spec: the encoded size of a length field (§4.1):
one octet for values ≤ 0x7F, otherwise 1 + the minimal number k ∈ {1..4}
of big-endian octets that hold the value. -/
def Length.encoded_length (n : Nat) : Nat :=
  if n ≤ 0x7F then 1
  else if n < 0x100 then 2
  else if n < 0x10000 then 3
  else if n < 0x1000000 then 4
  else 5

/-- `impl Encodable for Tag` from `tag.rs`: every tag occupies exactly
one octet on the wire. -/
def Tag.encoded_len (_ : Tag) : Result Length :=
  .ok Length.ONE

/-- Modelled from the spec: `header.rs` is missing from the sources.
A header is the pair (Tag, Length) (spec §3, §4.3). -/
structure Header where
  tag : Tag
  length : Nat

/-- Modelled from the spec: the header's encoded length is the tag's
encoded length plus the length field's encoded length (spec §4.3). -/
def Header.encoded_len (h : Header) : Result Length :=
  match h.tag.encoded_len with
  | .ok k => .ok (k + Length.encoded_length h.length)
  | .error e => .error e

/-- Tags carry a number in range 0–30; the parameterized variants can
only be built with such a number in the Rust sources (where `TagNumber`
enforces the bound), so theorems over all tags assume it. -/
def Tag.number_in_range : Tag → Prop
  | .Application _ n => n.value ≤ 30
  | .ContextSpecific _ n => n.value ≤ 30
  | .Private _ n => n.value ≤ 30
  | _ => True

instance : DecidablePred Tag.number_in_range := fun t =>
  match t with
  | .Application _ n => inferInstanceAs (Decidable (n.value ≤ 30))
  | .ContextSpecific _ n => inferInstanceAs (Decidable (n.value ≤ 30))
  | .Private _ n => inferInstanceAs (Decidable (n.value ≤ 30))
  | .Boolean => inferInstanceAs (Decidable True)
  | .Integer => inferInstanceAs (Decidable True)
  | .BitString => inferInstanceAs (Decidable True)
  | .OctetString => inferInstanceAs (Decidable True)
  | .Null => inferInstanceAs (Decidable True)
  | .ObjectIdentifier => inferInstanceAs (Decidable True)
  | .Utf8String => inferInstanceAs (Decidable True)
  | .Sequence => inferInstanceAs (Decidable True)
  | .Set => inferInstanceAs (Decidable True)
  | .PrintableString => inferInstanceAs (Decidable True)
  | .Ia5String => inferInstanceAs (Decidable True)
  | .UtcTime => inferInstanceAs (Decidable True)
  | .GeneralizedTime => inferInstanceAs (Decidable True)

/-- C1: `Tag::try_from` maps the thirteen recognized universal octets to
their variants (0x30 to SEQUENCE, 0x31 to SET), and every byte of the
ranges 0x40–0x7E, 0x80–0xBE, 0xC0–0xFE whose low five bits are not 31 to
Application, ContextSpecific, Private respectively, with the constructed
flag read from bit 6 (mask 0x20) and the tag number from the low 5 bits. -/
theorem tag_try_from_byte_mapping :
    Tag.try_from 0x01 = .ok .Boolean ∧
    Tag.try_from 0x02 = .ok .Integer ∧
    Tag.try_from 0x03 = .ok .BitString ∧
    Tag.try_from 0x04 = .ok .OctetString ∧
    Tag.try_from 0x05 = .ok .Null ∧
    Tag.try_from 0x06 = .ok .ObjectIdentifier ∧
    Tag.try_from 0x0C = .ok .Utf8String ∧
    Tag.try_from 0x13 = .ok .PrintableString ∧
    Tag.try_from 0x16 = .ok .Ia5String ∧
    Tag.try_from 0x17 = .ok .UtcTime ∧
    Tag.try_from 0x18 = .ok .GeneralizedTime ∧
    Tag.try_from 0x30 = .ok .Sequence ∧
    Tag.try_from 0x31 = .ok .Set ∧
    (∀ b, 0x40 ≤ b → b ≤ 0x7E → b &&& 0x1F ≠ 31 →
      Tag.try_from b = .ok (.Application ((b &&& 0x20) != 0) ⟨b &&& 0x1F⟩)) ∧
    (∀ b, 0x80 ≤ b → b ≤ 0xBE → b &&& 0x1F ≠ 31 →
      Tag.try_from b = .ok (.ContextSpecific ((b &&& 0x20) != 0) ⟨b &&& 0x1F⟩)) ∧
    (∀ b, 0xC0 ≤ b → b ≤ 0xFE → b &&& 0x1F ≠ 31 →
      Tag.try_from b = .ok (.Private ((b &&& 0x20) != 0) ⟨b &&& 0x1F⟩)) := by
  refine ⟨by decide, by decide, by decide, by decide, by decide, by decide, by decide,
    by decide, by decide, by decide, by decide, by decide, by decide, ?_, ?_, ?_⟩
  · have key : ∀ b < 0x7F, 0x40 ≤ b → ¬ b &&& 0x1F = 31 →
        Tag.try_from b = .ok (.Application ((b &&& 0x20) != 0) ⟨b &&& 0x1F⟩) := by decide
    intro b h1 h2 h3
    exact key b (by omega) h1 h3
  · have key : ∀ b < 0xBF, 0x80 ≤ b → ¬ b &&& 0x1F = 31 →
        Tag.try_from b = .ok (.ContextSpecific ((b &&& 0x20) != 0) ⟨b &&& 0x1F⟩) := by decide
    intro b h1 h2 h3
    exact key b (by omega) h1 h3
  · have key : ∀ b < 0xFF, 0xC0 ≤ b → ¬ b &&& 0x1F = 31 →
        Tag.try_from b = .ok (.Private ((b &&& 0x20) != 0) ⟨b &&& 0x1F⟩) := by decide
    intro b h1 h2 h3
    exact key b (by omega) h1 h3

/-- Witness for C1: byte 0x61 lies in the application range, has low
five bits 1 and bit 6 set, and parses to a constructed Application tag
with number 1. -/
theorem tag_try_from_byte_mapping_witness :
    ((0x40 : Nat) ≤ 0x61 ∧ (0x61 : Nat) ≤ 0x7E ∧ (0x61 : Nat) &&& 0x1F ≠ 31) ∧
    Tag.try_from 0x61 = .ok (.Application true ⟨1⟩) :=
  ⟨by decide,
   tag_try_from_byte_mapping.2.2.2.2.2.2.2.2.2.2.2.2.2.1 0x61
     (by decide) (by decide) (by decide)⟩

/-- C2: parsing and emission of tags round-trip both ways: every tag
value (with its number in the range 0–30 that the sources enforce)
re-parses from its own octet, and every byte accepted by `try_from`
re-emits to itself. -/
theorem tag_octet_round_trip :
    (∀ t : Tag, t.number_in_range → Tag.try_from t.octet = .ok t) ∧
    (∀ b, b < 256 → ∀ t : Tag, Tag.try_from b = .ok t → Tag.octet t = b) := by
  constructor
  · intro t h
    cases t with
    | Boolean => decide
    | Integer => decide
    | BitString => decide
    | OctetString => decide
    | Null => decide
    | ObjectIdentifier => decide
    | Utf8String => decide
    | Sequence => decide
    | Set => decide
    | PrintableString => decide
    | Ia5String => decide
    | UtcTime => decide
    | GeneralizedTime => decide
    | Application c n =>
        obtain ⟨v⟩ := n
        have hv : v ≤ 30 := h
        have key : ∀ v < 31, ∀ c : Bool,
            Tag.try_from (Tag.Application c ⟨v⟩).octet = .ok (.Application c ⟨v⟩) := by decide
        exact key v (by omega) c
    | ContextSpecific c n =>
        obtain ⟨v⟩ := n
        have hv : v ≤ 30 := h
        have key : ∀ v < 31, ∀ c : Bool,
            Tag.try_from (Tag.ContextSpecific c ⟨v⟩).octet
              = .ok (.ContextSpecific c ⟨v⟩) := by decide
        exact key v (by omega) c
    | Private c n =>
        obtain ⟨v⟩ := n
        have hv : v ≤ 30 := h
        have key : ∀ v < 31, ∀ c : Bool,
            Tag.try_from (Tag.Private c ⟨v⟩).octet = .ok (.Private c ⟨v⟩) := by decide
        exact key v (by omega) c
  · intro b hb t h
    have key : ∀ b < 256,
        (Tag.try_from b).map Tag.octet = (Tag.try_from b).map (fun _ => b) := by decide
    have hk := key b hb
    rw [h] at hk
    simpa [Except.map] using hk

/-- Witness for C2: a constructed Application tag with number 5 survives
the encode-then-decode trip, and byte 0x82 survives decode-then-encode. -/
theorem tag_octet_round_trip_witness :
    Tag.number_in_range (.Application true ⟨5⟩) ∧
    Tag.try_from (Tag.Application true ⟨5⟩).octet = .ok (.Application true ⟨5⟩) ∧
    Tag.octet (.ContextSpecific false ⟨2⟩) = 0x82 :=
  ⟨by decide,
   tag_octet_round_trip.1 (.Application true ⟨5⟩) (by decide),
   tag_octet_round_trip.2 0x82 (by decide) (.ContextSpecific false ⟨2⟩) (by decide)⟩

/-- C3 counterexample: byte 0xFF is outside every recognized range, yet
`Tag::try_from` does not fail with `UnknownTag` carrying 0xFF — the tag
number check on the low five bits (31) fails first and can only carry
the masked value 0x1F, never the original byte. -/
theorem tag_unknown_counterexample :
    Tag.try_from 0xFF ≠ .error (.UnknownTag 0xFF) ∧
    Tag.try_from 0xFF = .error (.UnknownTag 0x1F) := by decide

/-- C3 amended: a byte that is neither a recognized universal octet nor
inside the three class ranges fails; when its low five bits are not 31
the error is exactly `UnknownTag` carrying that byte, but when the low
five bits are 31 the failure comes from the tag-number check and carries
the masked value `b &&& 0x1F` instead of the byte itself. -/
theorem tag_try_from_unknown (b : Nat) (hb : b < 256)
    (hu : ¬ (b = 0x01 ∨ b = 0x02 ∨ b = 0x03 ∨ b = 0x04 ∨ b = 0x05 ∨ b = 0x06 ∨
      b = 0x0C ∨ b = 0x13 ∨ b = 0x16 ∨ b = 0x17 ∨ b = 0x18 ∨ b = 0x30 ∨ b = 0x31))
    (h1 : ¬ (0x40 ≤ b ∧ b ≤ 0x7E)) (h2 : ¬ (0x80 ≤ b ∧ b ≤ 0xBE))
    (h3 : ¬ (0xC0 ≤ b ∧ b ≤ 0xFE)) :
    Tag.try_from b
      = .error (.UnknownTag (if b &&& 0x1F = 31 then b &&& 0x1F else b)) := by
  have key : ∀ b < 256,
      ¬ (b = 0x01 ∨ b = 0x02 ∨ b = 0x03 ∨ b = 0x04 ∨ b = 0x05 ∨ b = 0x06 ∨
        b = 0x0C ∨ b = 0x13 ∨ b = 0x16 ∨ b = 0x17 ∨ b = 0x18 ∨ b = 0x30 ∨ b = 0x31) →
      ¬ (0x40 ≤ b ∧ b ≤ 0x7E) → ¬ (0x80 ≤ b ∧ b ≤ 0xBE) → ¬ (0xC0 ≤ b ∧ b ≤ 0xFE) →
      Tag.try_from b
        = .error (.UnknownTag (if b &&& 0x1F = 31 then b &&& 0x1F else b)) := by decide
  exact key b hb hu h1 h2 h3

/-- Witness for the amended C3: the unrecognized byte 0x07 (low five
bits not 31) fails with `UnknownTag` carrying 0x07 itself. -/
theorem tag_try_from_unknown_witness :
    Tag.try_from 0x07 = .error (.UnknownTag 0x07) :=
  tag_try_from_unknown 0x07 (by decide) (by decide) (by decide) (by decide) (by decide)

/-- C4: every byte whose low five bits are all ones is rejected by
`Tag::try_from`, and no successfully parsed tag carries a number above
30. -/
theorem tag_number_31_rejected :
    (∀ b, b < 256 → b &&& 0x1F = 31 → (Tag.try_from b).isOk = false) ∧
    (∀ b, b < 256 → ∀ t : Tag, Tag.try_from b = .ok t → t.number.value ≤ 30) := by
  constructor
  · have key : ∀ b < 256, b &&& 0x1F = 31 → (Tag.try_from b).isOk = false := by decide
    intro b hb h
    exact key b hb h
  · intro b hb t h
    have key : ∀ b < 256,
        (((Tag.try_from b).toOption).map (fun u => u.number.value)).getD 0 ≤ 30 := by decide
    have hk := key b hb
    rw [h] at hk
    simpa [Except.toOption] using hk

/-- Witness for C4: byte 0xBF has low five bits 31 and is rejected; the
tag parsed from byte 0x41 has number 1, within the bound. -/
theorem tag_number_31_rejected_witness :
    ((0xBF : Nat) &&& 0x1F = 31 ∧ (Tag.try_from 0xBF).isOk = false) ∧
    (Tag.Application false ⟨1⟩).number.value ≤ 30 :=
  ⟨⟨by decide, tag_number_31_rejected.1 0xBF (by decide) (by decide)⟩,
   tag_number_31_rejected.2 0x41 (by decide) (.Application false ⟨1⟩) (by decide)⟩

/-- C5: `is_constructed` is true exactly for SEQUENCE and SET among the
universal variants, and for the three parameterized classes it returns
precisely the stored constructed field (for numbers in range 0–30). -/
theorem tag_is_constructed_spec :
    Tag.Sequence.is_constructed = true ∧
    Tag.Set.is_constructed = true ∧
    Tag.Boolean.is_constructed = false ∧
    Tag.Integer.is_constructed = false ∧
    Tag.BitString.is_constructed = false ∧
    Tag.OctetString.is_constructed = false ∧
    Tag.Null.is_constructed = false ∧
    Tag.ObjectIdentifier.is_constructed = false ∧
    Tag.Utf8String.is_constructed = false ∧
    Tag.PrintableString.is_constructed = false ∧
    Tag.Ia5String.is_constructed = false ∧
    Tag.UtcTime.is_constructed = false ∧
    Tag.GeneralizedTime.is_constructed = false ∧
    (∀ (c : Bool) (v : Nat), v ≤ 30 →
      (Tag.Application c ⟨v⟩).is_constructed = c ∧
      (Tag.ContextSpecific c ⟨v⟩).is_constructed = c ∧
      (Tag.Private c ⟨v⟩).is_constructed = c) := by
  refine ⟨by decide, by decide, by decide, by decide, by decide, by decide, by decide,
    by decide, by decide, by decide, by decide, by decide, by decide, ?_⟩
  have key : ∀ v < 31, ∀ c : Bool,
      (Tag.Application c ⟨v⟩).is_constructed = c ∧
      (Tag.ContextSpecific c ⟨v⟩).is_constructed = c ∧
      (Tag.Private c ⟨v⟩).is_constructed = c := by decide
  intro c v hv
  exact key v (by omega) c

/-- Witness for C5: a primitive ContextSpecific tag with number 0
reports `is_constructed = false` via the class clause of the theorem. -/
theorem tag_is_constructed_spec_witness :
    (0 : Nat) ≤ 30 ∧ (Tag.ContextSpecific false ⟨0⟩).is_constructed = false :=
  ⟨by decide,
   (tag_is_constructed_spec.2.2.2.2.2.2.2.2.2.2.2.2.2 false 0 (by decide)).2.1⟩

/-- C6: `assert_eq` returns `Ok` exactly on equal tags; on a mismatch it
fails with `UnexpectedTag` whose expected field is `some expected` and
whose actual field is the receiver. -/
theorem tag_assert_eq_spec (t expected : Tag) :
    (Tag.assert_eq t expected = .ok t ↔ t = expected) ∧
    (t ≠ expected →
      Tag.assert_eq t expected = .error (.UnexpectedTag (some expected) t)) := by
  constructor
  · constructor
    · intro hok
      by_contra hne
      unfold Tag.assert_eq at hok
      rw [if_neg hne] at hok
      exact Except.noConfusion hok
    · intro he
      unfold Tag.assert_eq
      rw [if_pos he]
  · intro hne
    unfold Tag.assert_eq
    rw [if_neg hne]
    rfl

/-- Witness for C6: asserting BOOLEAN against expected INTEGER fails
with the `UnexpectedTag` error carrying both tags. -/
theorem tag_assert_eq_spec_witness :
    Tag.assert_eq .Boolean .Integer
      = .error (.UnexpectedTag (some .Integer) .Boolean) :=
  (tag_assert_eq_spec .Boolean .Integer).2 (by decide)

/-- C7: the encoded octet decomposes by bit fields into the tag's
queries — the top two bits give the class bits, bit 6 gives
`is_constructed`, the low five bits give the tag number — and the
thirteen built-in variants are Universal while the parameterized
variants carry their respective classes. -/
theorem tag_octet_bit_fields :
    (∀ t : Tag, t.number_in_range →
      t.octet &&& 0xC0 = t.tagClass.bits ∧
      t.is_constructed = ((t.octet &&& 0x20) != 0) ∧
      t.number.value = t.octet &&& 0x1F) ∧
    Tag.Boolean.tagClass = .Universal ∧
    Tag.Integer.tagClass = .Universal ∧
    Tag.BitString.tagClass = .Universal ∧
    Tag.OctetString.tagClass = .Universal ∧
    Tag.Null.tagClass = .Universal ∧
    Tag.ObjectIdentifier.tagClass = .Universal ∧
    Tag.Utf8String.tagClass = .Universal ∧
    Tag.Sequence.tagClass = .Universal ∧
    Tag.Set.tagClass = .Universal ∧
    Tag.PrintableString.tagClass = .Universal ∧
    Tag.Ia5String.tagClass = .Universal ∧
    Tag.UtcTime.tagClass = .Universal ∧
    Tag.GeneralizedTime.tagClass = .Universal ∧
    (∀ c n, (Tag.Application c n).tagClass = .Application) ∧
    (∀ c n, (Tag.ContextSpecific c n).tagClass = .ContextSpecific) ∧
    (∀ c n, (Tag.Private c n).tagClass = .Private) := by
  refine ⟨?_, rfl, rfl, rfl, rfl, rfl, rfl, rfl, rfl, rfl, rfl, rfl, rfl, rfl,
    fun c n => rfl, fun c n => rfl, fun c n => rfl⟩
  intro t h
  cases t with
  | Boolean => decide
  | Integer => decide
  | BitString => decide
  | OctetString => decide
  | Null => decide
  | ObjectIdentifier => decide
  | Utf8String => decide
  | Sequence => decide
  | Set => decide
  | PrintableString => decide
  | Ia5String => decide
  | UtcTime => decide
  | GeneralizedTime => decide
  | Application c n =>
      obtain ⟨v⟩ := n
      have hv : v ≤ 30 := h
      have key : ∀ v < 31, ∀ c : Bool,
          (Tag.Application c ⟨v⟩).octet &&& 0xC0 = (Tag.Application c ⟨v⟩).tagClass.bits ∧
          (Tag.Application c ⟨v⟩).is_constructed
            = (((Tag.Application c ⟨v⟩).octet &&& 0x20) != 0) ∧
          (Tag.Application c ⟨v⟩).number.value
            = (Tag.Application c ⟨v⟩).octet &&& 0x1F := by decide
      exact key v (by omega) c
  | ContextSpecific c n =>
      obtain ⟨v⟩ := n
      have hv : v ≤ 30 := h
      have key : ∀ v < 31, ∀ c : Bool,
          (Tag.ContextSpecific c ⟨v⟩).octet &&& 0xC0
            = (Tag.ContextSpecific c ⟨v⟩).tagClass.bits ∧
          (Tag.ContextSpecific c ⟨v⟩).is_constructed
            = (((Tag.ContextSpecific c ⟨v⟩).octet &&& 0x20) != 0) ∧
          (Tag.ContextSpecific c ⟨v⟩).number.value
            = (Tag.ContextSpecific c ⟨v⟩).octet &&& 0x1F := by decide
      exact key v (by omega) c
  | Private c n =>
      obtain ⟨v⟩ := n
      have hv : v ≤ 30 := h
      have key : ∀ v < 31, ∀ c : Bool,
          (Tag.Private c ⟨v⟩).octet &&& 0xC0 = (Tag.Private c ⟨v⟩).tagClass.bits ∧
          (Tag.Private c ⟨v⟩).is_constructed
            = (((Tag.Private c ⟨v⟩).octet &&& 0x20) != 0) ∧
          (Tag.Private c ⟨v⟩).number.value
            = (Tag.Private c ⟨v⟩).octet &&& 0x1F := by decide
      exact key v (by omega) c

/-- Witness for C7: the bit-field decomposition evaluated on a
constructed Private tag with number 7 (octet 0xE7). -/
theorem tag_octet_bit_fields_witness :
    Tag.number_in_range (.Private true ⟨7⟩) ∧
    ((Tag.Private true ⟨7⟩).octet &&& 0xC0 = (Tag.Private true ⟨7⟩).tagClass.bits ∧
     (Tag.Private true ⟨7⟩).is_constructed
       = (((Tag.Private true ⟨7⟩).octet &&& 0x20) != 0) ∧
     (Tag.Private true ⟨7⟩).number.value = (Tag.Private true ⟨7⟩).octet &&& 0x1F) :=
  ⟨by decide, tag_octet_bit_fields.1 (.Private true ⟨7⟩) (by decide)⟩

/-- C8: every tag's encoded length is exactly one octet, so a header's
encoded length is 1 plus the encoded length of its length field. -/
theorem tag_encoded_len_one :
    (∀ t : Tag, Tag.encoded_len t = .ok 1) ∧
    (∀ (t : Tag) (n : Nat),
      Header.encoded_len ⟨t, n⟩ = .ok (1 + Length.encoded_length n)) := by
  exact ⟨fun t => rfl, fun t n => rfl⟩

/-- C9: the four class predicates partition the tags — on every tag
value exactly one of `is_universal`, `is_application`,
`is_context_specific`, `is_private` holds. -/
theorem tag_class_partition (t : Tag) :
    t.is_universal.toNat + t.is_application.toNat
      + t.is_context_specific.toNat + t.is_private.toNat = 1 := by
  cases t <;> rfl

/-- C10: the primitive-form identifier octets for SEQUENCE (0x10) and
SET (0x11) are rejected with `UnknownTag`; only the constructed-form
octets 0x30 and 0x31 yield `Tag::Sequence` and `Tag::Set`. -/
theorem tag_primitive_sequence_set_rejected :
    Tag.try_from 0x10 = .error (.UnknownTag 0x10) ∧
    Tag.try_from 0x11 = .error (.UnknownTag 0x11) ∧
    Tag.try_from 0x30 = .ok .Sequence ∧
    Tag.try_from 0x31 = .ok .Set := by decide

end Der
